import Mathlib

/-!
Verification of the gocommerce price/tax/discount calculation engine
(`calculator/calculator.go`), shallowly embedded in Lean.

Modelling conventions:

* Go `uint64` is `ℕ` together with explicit reduction modulo `W = 2 ^ 64`
  at every arithmetic operation that can wrap (`add64`, `sub64`, `mul64`).
* The `float64` intermediate arithmetic feeding `rint` is modelled by exact
  rational arithmetic on `ℚ`; every call site divides integer monetary
  amounts by integer percentages, so the mathematical value is a rational
  number and the rational model is the intended exact semantics.
* `math.Modf` splits a float into an integral part truncated toward zero and
  a fractional remainder of the same sign; these are `qtrunc` and `qfrac`.
* Go's `uint64(v)` conversion applied to the rounded value is modelled as
  reduction of the integer modulo `2 ^ 64` (the two's-complement reading);
  every call site in the engine passes a nonnegative in-range value, where
  the conversion is the identity.  Likewise the `uint64(v) % 2` parity test
  inside `rint` is modelled as integer parity, which the wrap preserves.
* Go interface values (`Item`, `Coupon`) are records of their capability
  methods, and nilable pointers/interfaces (`*Settings`, `Coupon`) are
  `Option`.  Go slices are lists; a `nil` slice and an empty slice are both
  the empty list, matching the code's uniform `x != nil && len(x) > 0` test.
-/

attribute [local semireducible] Rat.inv Rat.mul Rat.add Rat.sub

/-- The modulus of Go's `uint64` arithmetic. -/
def W : ℕ := 2 ^ 64

/-- Go `uint64` addition. -/
def add64 (a b : ℕ) : ℕ := (a + b) % W

/-- Go `uint64` subtraction (wrapping). -/
def sub64 (a b : ℕ) : ℕ := (a + (W - b % W)) % W

/-- Go `uint64` multiplication. -/
def mul64 (a b : ℕ) : ℕ := (a * b) % W

/-- Integral part of `math.Modf`: truncation toward zero. -/
def qtrunc (x : ℚ) : ℤ := if 0 ≤ x then ⌊x⌋ else ⌈x⌉

/-- Fractional part of `math.Modf`: `x` minus its truncation, carrying the
sign of `x`. -/
def qfrac (x : ℚ) : ℚ := x - qtrunc x

/-- The rounding routine `rint` of `calculator.go` before the final `uint64`
conversion: round half to even via `math.Modf`, exactly mirroring the Go
control flow (`v, frac := math.Modf(x)`, then the two signed branches). -/
def rint (x : ℚ) : ℤ :=
  let v := qtrunc x
  let frac := qfrac x
  if 0 < x then
    if 1/2 < frac ∨ (frac = 1/2 ∧ v % 2 ≠ 0) then v + 1 else v
  else
    if frac < -(1/2) ∨ (frac = -(1/2) ∧ v % 2 ≠ 0) then v - 1 else v

/-- `rint` composed with the trailing `uint64(v)` conversion of the Go
function. -/
def rintU (x : ℚ) : ℕ := ((rint x) % (W : ℤ)).toNat

/-- `calculator.Tax`: one configured tax rule. -/
structure Tax where
  Percentage : ℕ
  ProductTypes : List String
  Countries : List String
deriving DecidableEq

/-- `calculator.Settings`: merchant configuration. -/
structure Settings where
  PricesIncludeTaxes : Bool
  Taxes : List Tax

/-- The `calculator.Item` interface: a record of its capability methods.
`TaxableItems` makes the type recursive, hence an inductive. -/
inductive Item : Type where
  | mk (priceInLowestUnit : ℕ) (productType : String) (fixedVAT : ℕ)
       (taxableItems : List Item) (quantity : ℕ)

def Item.PriceInLowestUnit : Item → ℕ
  | .mk p _ _ _ _ => p

def Item.ProductType : Item → String
  | .mk _ t _ _ _ => t

def Item.FixedVAT : Item → ℕ
  | .mk _ _ v _ _ => v

def Item.TaxableItems : Item → List Item
  | .mk _ _ _ l _ => l

def Item.GetQuantity : Item → ℕ
  | .mk _ _ _ _ q => q

/-- The `calculator.Coupon` interface: a record of its capability methods. -/
structure Coupon where
  ValidForType : String → Bool
  ValidForPrice : String → ℕ → Bool
  PercentageDiscount : ℕ
  FixedDiscount : ℕ

/-- `calculator.taxAmount`: one `(basis, percentage)` pair. -/
structure taxAmount where
  price : ℕ
  percentage : ℕ
deriving DecidableEq

/-- `calculator.ItemPrice`: the per-item result record. -/
structure ItemPrice where
  Quantity : ℕ
  Subtotal : ℕ
  Discount : ℕ
  Taxes : ℕ
  Total : ℕ
deriving DecidableEq

/-- `calculator.Price`: the order-level result record. -/
structure Price where
  Items : List ItemPrice
  Subtotal : ℕ
  Discount : ℕ
  Taxes : ℕ
  Total : ℕ
deriving DecidableEq

/-- `Tax.AppliesTo` from `calculator.go`, mirroring its control flow: start
from `applies = true`, restrict by product types (when the list is
non-empty), bail out on failure, then restrict by countries. -/
def Tax.AppliesTo (t : Tax) (country productType : String) : Bool :=
  let applies1 : Bool :=
    if t.ProductTypes.length > 0 then t.ProductTypes.any (fun s => s == productType)
    else true
  if !applies1 then false
  else
    if t.Countries.length > 0 then t.Countries.any (fun c => c == country)
    else true

/-- The `for _, t := range taxes { if t.AppliesTo(...) { ...; break } }`
selection loop of `CalculatePrice`: the first applicable rule, if any. -/
def firstMatch (rules : List Tax) (country productType : String) : Option Tax :=
  match rules with
  | [] => none
  | t :: rest =>
    if t.AppliesTo country productType then some t
    else firstMatch rest country productType

/-- The `taxAmounts` slice built by `CalculatePrice` for one item: the
fixed-VAT override branch, the taxable-sub-items branch (requires settings),
and the simple-item branch (requires settings). -/
def taxAmountsFor (settings : Option Settings) (country : String) (item : Item) :
    List taxAmount :=
  if item.FixedVAT ≠ 0 then
    [{ price := item.PriceInLowestUnit, percentage := item.FixedVAT }]
  else
    match settings with
    | none => []
    | some s =>
      if item.TaxableItems.length > 0 then
        item.TaxableItems.map (fun sub =>
          { price := sub.PriceInLowestUnit
            percentage :=
              match firstMatch s.Taxes country sub.ProductType with
              | some t => t.Percentage
              | none => 0 })
      else
        match firstMatch s.Taxes country item.ProductType with
        | some t => [{ price := item.PriceInLowestUnit, percentage := t.Percentage }]
        | none => []

/-- `includeTaxes := settings != nil && settings.PricesIncludeTaxes`. -/
def includeTaxesFlag : Option Settings → Bool
  | none => false
  | some s => s.PricesIncludeTaxes

/-- Body of the `for _, tax := range taxAmounts` loop: the state is the pair
`(itemPrice.Subtotal, itemPrice.Taxes)`.  In tax-inclusive mode the basis is
first backed out (`tax.price = rint(float64(tax.price) / (100 +
float64(tax.percentage)) * 100)`) and accumulated into the subtotal; the tax
is then computed on the current basis. -/
def taxStep (includeTaxes : Bool) (st : ℕ × ℕ) (tax : taxAmount) : ℕ × ℕ :=
  if includeTaxes then
    let p := rintU ((tax.price : ℚ) / (100 + (tax.percentage : ℚ)) * 100)
    (add64 st.1 p, add64 st.2 (rintU ((p : ℚ) * (tax.percentage : ℚ) / 100)))
  else
    (st.1, add64 st.2 (rintU ((tax.price : ℚ) * (tax.percentage : ℚ) / 100)))

/-- The `(itemPrice.Subtotal, itemPrice.Taxes)` state after the
`if len(taxAmounts) != 0 { ... }` block: the subtotal starts from the raw
unit price, is reset to `0` (then rebuilt from backed-out bases) only when
tax amounts exist and prices include taxes. -/
def itemSubTax (includeTaxes : Bool) (settings : Option Settings) (country : String)
    (item : Item) : ℕ × ℕ :=
  let taxAmounts := taxAmountsFor settings country item
  if taxAmounts.length ≠ 0 then
    taxAmounts.foldl (taxStep includeTaxes)
      ((if includeTaxes then 0 else item.PriceInLowestUnit), 0)
  else (item.PriceInLowestUnit, 0)

/-- The per-item body of the main loop of `CalculatePrice`: builds one
`ItemPrice` from an input item (subtotal/taxes via `taxStep`, then the
coupon discount, then `Total = Subtotal - Discount + Taxes` in `uint64`
arithmetic). -/
def calculateItemPrice (includeTaxes : Bool) (settings : Option Settings)
    (country : String) (coupon : Option Coupon) (item : Item) : ItemPrice :=
  let st : ℕ × ℕ := itemSubTax includeTaxes settings country item
  let discount : ℕ :=
    match coupon with
    | some c =>
      if c.ValidForType item.ProductType then
        let amountToDiscount := if includeTaxes then add64 st.1 st.2 else st.1
        rintU ((amountToDiscount : ℚ) * (c.PercentageDiscount : ℚ) / 100)
      else 0
    | none => 0
  { Quantity := item.GetQuantity
    Subtotal := st.1
    Discount := discount
    Taxes := st.2
    Total := add64 (sub64 st.1 discount) st.2 }

/-- The accumulation step at the bottom of the main loop: append the item
result and add the quantity-weighted unit amounts into the order totals. -/
def accumulateItem (price : Price) (itemPrice : ItemPrice) : Price :=
  { Items := price.Items ++ [itemPrice]
    Subtotal := add64 price.Subtotal (mul64 itemPrice.Subtotal itemPrice.Quantity)
    Discount := add64 price.Discount (mul64 itemPrice.Discount itemPrice.Quantity)
    Taxes := add64 price.Taxes (mul64 itemPrice.Taxes itemPrice.Quantity)
    Total := add64 price.Total (mul64 itemPrice.Total itemPrice.Quantity) }

/-- `calculator.CalculatePrice`: iterate the items accumulating into a fresh
`Price`, then overwrite the order total with
`price.Total = price.Subtotal - price.Discount + price.Taxes`. -/
def CalculatePrice (settings : Option Settings) (country currency : String)
    (coupon : Option Coupon) (items : List Item) : Price :=
  let includeTaxes := includeTaxesFlag settings
  let price : Price :=
    items.foldl
      (fun price item =>
        accumulateItem price (calculateItemPrice includeTaxes settings country coupon item))
      { Items := [], Subtotal := 0, Discount := 0, Taxes := 0, Total := 0 }
  { price with Total := add64 (sub64 price.Subtotal price.Discount) price.Taxes }

/-- Backed-out tax-exclusive basis used in tax-inclusive mode:
`rint(float64(tax.price) / (100 + float64(tax.percentage)) * 100)`. -/
def backOut (t : taxAmount) : ℕ :=
  rintU ((t.price : ℚ) / (100 + (t.percentage : ℚ)) * 100)

/-- Per-pair tax in tax-inclusive mode: computed on the backed-out basis. -/
def inclTax (t : taxAmount) : ℕ :=
  rintU ((backOut t : ℚ) * (t.percentage : ℚ) / 100)

/-- Per-pair tax in tax-exclusive mode: computed on the original basis. -/
def exclTax (t : taxAmount) : ℕ :=
  rintU ((t.price : ℚ) * (t.percentage : ℚ) / 100)

/-- A 20% tax rule for product type `"b"` in country `"US"` (concrete data
for the spec's worked examples). -/
def sampleTax : Tax := { Percentage := 20, ProductTypes := ["b"], Countries := ["US"] }

/-- Tax-exclusive settings with the single 20% rule. -/
def sampleSettingsEx : Settings := { PricesIncludeTaxes := false, Taxes := [sampleTax] }

/-- Tax-inclusive settings with the single 20% rule. -/
def sampleSettingsInc : Settings := { PricesIncludeTaxes := true, Taxes := [sampleTax] }

/-- A simple item priced 1000, product type `"b"`, quantity 1. -/
def sampleItem : Item := .mk 1000 "b" 0 [] 1

/-- A simple item priced 1200, product type `"b"`, quantity 1 (for the
tax-inclusive example). -/
def sampleItemInc : Item := .mk 1200 "b" 0 [] 1

/-- The item of the quantity-scaling example: priced 1000, quantity 3. -/
def sampleItemQty3 : Item := .mk 1000 "b" 0 [] 3

/-- An item carrying a non-zero fixed VAT percentage. -/
def fixedVATItem : Item := .mk 1000 "b" 20 [] 1

/-- A 10% coupon valid for product type `"b"`. -/
def sampleCoupon : Coupon :=
  { ValidForType := fun s => s == "b", ValidForPrice := fun _ _ => true,
    PercentageDiscount := 10, FixedDiscount := 0 }

/-- A 200% coupon valid for every product type (drives the wrap-around
example). -/
def overCoupon : Coupon :=
  { ValidForType := fun _ => true, ValidForPrice := fun _ _ => true,
    PercentageDiscount := 200, FixedDiscount := 0 }

/-- A sub-item priced 105, product type `"b"`. -/
def subItemA : Item := .mk 105 "b" 0 [] 1

/-- A composite item priced 500 with two taxable sub-items. -/
def bundleItem : Item := .mk 500 "p" 0 [subItemA, subItemA] 1

/-- Tax-exclusive settings with a single wildcard 10% rule (empty product
type and country filters). -/
def wildcardSettings : Settings :=
  { PricesIncludeTaxes := false,
    Taxes := [{ Percentage := 10, ProductTypes := [], Countries := [] }] }

/-- A rule that does not match product type `"b"`. -/
def otherTax : Tax := { Percentage := 7, ProductTypes := ["x"], Countries := [] }

lemma W_pos : 0 < W := by norm_num [W]

lemma add64_lt (a b : ℕ) : add64 a b < W := Nat.mod_lt _ W_pos

lemma sub64_lt (a b : ℕ) : sub64 a b < W := Nat.mod_lt _ W_pos

lemma mul64_lt (a b : ℕ) : mul64 a b < W := Nat.mod_lt _ W_pos

lemma rintU_lt (x : ℚ) : rintU x < W := by
  have h := Int.emod_lt_of_pos (rint x) (by exact_mod_cast W_pos : (0:ℤ) < (W:ℤ))
  have h0 : 0 ≤ (rint x) % (W : ℤ) :=
    Int.emod_nonneg _ (by exact_mod_cast W_pos.ne' : (W:ℤ) ≠ 0)
  unfold rintU
  omega

lemma taxStep_true (st : ℕ × ℕ) (t : taxAmount) :
    taxStep true st t = (add64 st.1 (backOut t), add64 st.2 (inclTax t)) := rfl

lemma taxStep_false (st : ℕ × ℕ) (t : taxAmount) :
    taxStep false st t = (st.1, add64 st.2 (exclTax t)) := rfl

lemma foldl_taxStep_true (l : List taxAmount) :
    ∀ a b : ℕ, a < W → b < W →
      l.foldl (taxStep true) (a, b)
        = ((a + (l.map backOut).sum) % W, (b + (l.map inclTax).sum) % W) := by
  induction l with
  | nil =>
    intro a b ha hb
    simp [Nat.mod_eq_of_lt ha, Nat.mod_eq_of_lt hb]
  | cons t l ih =>
    intro a b ha hb
    simp only [List.foldl_cons, List.map_cons, List.sum_cons, taxStep_true]
    rw [ih _ _ (add64_lt _ _) (add64_lt _ _)]
    unfold add64
    rw [Prod.mk.injEq]
    constructor <;>
      · rw [Nat.mod_add_mod, Nat.add_assoc]

lemma foldl_taxStep_false (l : List taxAmount) :
    ∀ a b : ℕ, b < W →
      l.foldl (taxStep false) (a, b) = (a, (b + (l.map exclTax).sum) % W) := by
  induction l with
  | nil =>
    intro a b hb
    simp [Nat.mod_eq_of_lt hb]
  | cons t l ih =>
    intro a b hb
    simp only [List.foldl_cons, List.map_cons, List.sum_cons, taxStep_false]
    rw [ih _ _ (add64_lt _ _)]
    unfold add64
    rw [Prod.mk.injEq]
    refine ⟨rfl, ?_⟩
    rw [Nat.mod_add_mod, Nat.add_assoc]

lemma calculateItemPrice_Subtotal (includeTaxes : Bool) (settings : Option Settings)
    (country : String) (coupon : Option Coupon) (item : Item) :
    (calculateItemPrice includeTaxes settings country coupon item).Subtotal
        = (itemSubTax includeTaxes settings country item).1 := rfl

lemma calculateItemPrice_Taxes (includeTaxes : Bool) (settings : Option Settings)
    (country : String) (coupon : Option Coupon) (item : Item) :
    (calculateItemPrice includeTaxes settings country coupon item).Taxes
        = (itemSubTax includeTaxes settings country item).2 := rfl

lemma itemSubTax_incl (settings : Option Settings) (country : String) (item : Item)
    (h : taxAmountsFor settings country item ≠ []) :
    itemSubTax true settings country item
      = (((taxAmountsFor settings country item).map backOut).sum % W,
         ((taxAmountsFor settings country item).map inclTax).sum % W) := by
  have hlen : ¬ (taxAmountsFor settings country item).length = 0 := by
    simpa [List.length_eq_zero] using h
  unfold itemSubTax
  rw [if_pos hlen,
    show (if true = true then (0:ℕ) else item.PriceInLowestUnit) = 0 from rfl,
    foldl_taxStep_true _ 0 0 W_pos W_pos]
  simp

lemma itemSubTax_excl (settings : Option Settings) (country : String) (item : Item) :
    itemSubTax false settings country item
      = (item.PriceInLowestUnit,
         ((taxAmountsFor settings country item).map exclTax).sum % W) := by
  unfold itemSubTax
  by_cases hlen : (taxAmountsFor settings country item).length = 0
  · have h : taxAmountsFor settings country item = [] := List.length_eq_zero.mp hlen
    rw [if_neg (by simp [hlen])]
    simp [h, Nat.mod_eq_of_lt W_pos]
  · rw [if_pos hlen,
      show (if false = true then (0:ℕ) else item.PriceInLowestUnit) = item.PriceInLowestUnit
        from rfl,
      foldl_taxStep_false _ _ 0 W_pos]
    simp

lemma itemSubTax_noTax (includeTaxes : Bool) (settings : Option Settings)
    (country : String) (item : Item)
    (h : taxAmountsFor settings country item = []) :
    itemSubTax includeTaxes settings country item = (item.PriceInLowestUnit, 0) := by
  unfold itemSubTax
  rw [if_neg (by simp [h])]

lemma calculateItemPrice_Quantity (includeTaxes : Bool) (settings : Option Settings)
    (country : String) (coupon : Option Coupon) (item : Item) :
    (calculateItemPrice includeTaxes settings country coupon item).Quantity
        = item.GetQuantity := rfl

lemma calculateItemPrice_Total (includeTaxes : Bool) (settings : Option Settings)
    (country : String) (coupon : Option Coupon) (item : Item) :
    (calculateItemPrice includeTaxes settings country coupon item).Total
        = add64
            (sub64 (calculateItemPrice includeTaxes settings country coupon item).Subtotal
                   (calculateItemPrice includeTaxes settings country coupon item).Discount)
            (calculateItemPrice includeTaxes settings country coupon item).Taxes := rfl

lemma calculateItemPrice_Discount (includeTaxes : Bool) (settings : Option Settings)
    (country : String) (c : Coupon) (item : Item) :
    (calculateItemPrice includeTaxes settings country (some c) item).Discount
      = if c.ValidForType item.ProductType then
          rintU
            (((if includeTaxes then
                add64 (calculateItemPrice includeTaxes settings country (some c) item).Subtotal
                      (calculateItemPrice includeTaxes settings country (some c) item).Taxes
               else
                (calculateItemPrice includeTaxes settings country (some c) item).Subtotal : ℕ) : ℚ)
              * (c.PercentageDiscount : ℚ) / 100)
        else 0 := rfl

lemma calculateItemPrice_Discount_none (includeTaxes : Bool) (settings : Option Settings)
    (country : String) (item : Item) :
    (calculateItemPrice includeTaxes settings country none item).Discount = 0 := rfl

lemma calculateItemPrice_FixedDiscount_irrelevant (includeTaxes : Bool)
    (settings : Option Settings) (country : String) (c : Coupon) (n : ℕ) (item : Item) :
    calculateItemPrice includeTaxes settings country (some { c with FixedDiscount := n }) item
      = calculateItemPrice includeTaxes settings country (some c) item := rfl

lemma mod_acc_step (a m s : ℕ) : ((a + m % W) % W + s) % W = (a + (m + s)) % W := by
  rw [Nat.mod_add_mod]
  have h1 : a + m % W + s = m % W + (a + s) := by ring
  rw [h1, Nat.mod_add_mod]
  have h2 : m + (a + s) = a + (m + s) := by ring
  rw [h2]

lemma foldl_accumulateItem (f : Item → ItemPrice) (items : List Item) :
    ∀ p : Price, p.Subtotal < W → p.Discount < W → p.Taxes < W → p.Total < W →
      items.foldl (fun q i => accumulateItem q (f i)) p
        = { Items := p.Items ++ items.map f
            Subtotal :=
              (p.Subtotal + (items.map (fun i => (f i).Subtotal * (f i).Quantity)).sum) % W
            Discount :=
              (p.Discount + (items.map (fun i => (f i).Discount * (f i).Quantity)).sum) % W
            Taxes :=
              (p.Taxes + (items.map (fun i => (f i).Taxes * (f i).Quantity)).sum) % W
            Total :=
              (p.Total + (items.map (fun i => (f i).Total * (f i).Quantity)).sum) % W } := by
  induction items with
  | nil =>
    intro p h1 h2 h3 h4
    simp [Nat.mod_eq_of_lt h1, Nat.mod_eq_of_lt h2, Nat.mod_eq_of_lt h3, Nat.mod_eq_of_lt h4]
  | cons i items ih =>
    intro p h1 h2 h3 h4
    simp only [List.foldl_cons, List.map_cons, List.sum_cons]
    rw [ih _ (add64_lt _ _) (add64_lt _ _) (add64_lt _ _) (add64_lt _ _)]
    unfold accumulateItem add64 mul64
    simp only [Price.mk.injEq]
    exact ⟨by simp, mod_acc_step _ _ _, mod_acc_step _ _ _, mod_acc_step _ _ _,
      mod_acc_step _ _ _⟩

lemma CalculatePrice_fields (settings : Option Settings) (country currency : String)
    (coupon : Option Coupon) (items : List Item) :
    (CalculatePrice settings country currency coupon items).Items
        = items.map (calculateItemPrice (includeTaxesFlag settings) settings country coupon) ∧
    (CalculatePrice settings country currency coupon items).Subtotal
        = ((items.map (fun i =>
            (calculateItemPrice (includeTaxesFlag settings) settings country coupon i).Subtotal *
            (calculateItemPrice (includeTaxesFlag settings) settings country coupon i).Quantity)).sum)
          % W ∧
    (CalculatePrice settings country currency coupon items).Discount
        = ((items.map (fun i =>
            (calculateItemPrice (includeTaxesFlag settings) settings country coupon i).Discount *
            (calculateItemPrice (includeTaxesFlag settings) settings country coupon i).Quantity)).sum)
          % W ∧
    (CalculatePrice settings country currency coupon items).Taxes
        = ((items.map (fun i =>
            (calculateItemPrice (includeTaxesFlag settings) settings country coupon i).Taxes *
            (calculateItemPrice (includeTaxesFlag settings) settings country coupon i).Quantity)).sum)
          % W ∧
    (CalculatePrice settings country currency coupon items).Total
        = add64
            (sub64 (CalculatePrice settings country currency coupon items).Subtotal
                   (CalculatePrice settings country currency coupon items).Discount)
            (CalculatePrice settings country currency coupon items).Taxes := by
  simp only [CalculatePrice]
  rw [foldl_accumulateItem
        (calculateItemPrice (includeTaxesFlag settings) settings country coupon) items
        { Items := [], Subtotal := 0, Discount := 0, Taxes := 0, Total := 0 }
        W_pos W_pos W_pos W_pos]
  simp

lemma any_beq_eq_mem (l : List String) (a : String) :
    (l.any (fun s => s == a) = true) ↔ a ∈ l := by
  simp [List.any_eq_true, beq_iff_eq]

lemma AppliesTo_iff (t : Tax) (country productType : String) :
    t.AppliesTo country productType = true ↔
      ((t.ProductTypes = [] ∨ productType ∈ t.ProductTypes) ∧
       (t.Countries = [] ∨ country ∈ t.Countries)) := by
  unfold Tax.AppliesTo
  by_cases hp : t.ProductTypes = [] <;> by_cases hc : t.Countries = [] <;>
    simp [hp, hc, List.length_pos, any_beq_eq_mem]

lemma firstMatch_eq_find (rules : List Tax) (country productType : String) :
    firstMatch rules country productType
      = rules.find? (fun t => t.AppliesTo country productType) := by
  induction rules with
  | nil => rfl
  | cons t rest ih =>
    unfold firstMatch
    rw [List.find?_cons]
    cases h : t.AppliesTo country productType <;> simp [h, ih]

lemma firstMatch_none (rules : List Tax) (country productType : String)
    (h : ∀ t ∈ rules, t.AppliesTo country productType = false) :
    firstMatch rules country productType = none := by
  rw [firstMatch_eq_find]
  rw [List.find?_eq_none]
  intro t ht
  simp [h t ht]

lemma firstMatch_some (rules : List Tax) (country productType : String) (t : Tax)
    (h : firstMatch rules country productType = some t) :
    t.AppliesTo country productType = true ∧
    ∃ pre post, rules = pre ++ t :: post ∧
      ∀ u ∈ pre, u.AppliesTo country productType = false := by
  induction rules with
  | nil => simp [firstMatch] at h
  | cons r rest ih =>
    unfold firstMatch at h
    by_cases hr : r.AppliesTo country productType = true
    · rw [if_pos hr] at h
      obtain rfl : r = t := by simpa using h
      exact ⟨hr, [], rest, rfl, by simp⟩
    · rw [if_neg hr] at h
      obtain ⟨happ, pre, post, heq, hpre⟩ := ih h
      refine ⟨happ, r :: pre, post, by simp [heq], ?_⟩
      intro u hu
      rcases List.mem_cons.mp hu with rfl | hu
      · simpa using hr
      · exact hpre u hu

lemma taxAmountsFor_fixedVAT (settings : Option Settings) (country : String)
    (item : Item) (h : item.FixedVAT ≠ 0) :
    taxAmountsFor settings country item
      = [{ price := item.PriceInLowestUnit, percentage := item.FixedVAT }] := by
  unfold taxAmountsFor
  rw [if_pos h]

lemma taxAmountsFor_noSettings (country : String) (item : Item)
    (h : item.FixedVAT = 0) :
    taxAmountsFor none country item = [] := by
  unfold taxAmountsFor
  rw [if_neg (by simp [h])]

lemma taxAmountsFor_subItems (s : Settings) (country : String) (item : Item)
    (hfv : item.FixedVAT = 0) (hsub : item.TaxableItems ≠ []) :
    taxAmountsFor (some s) country item
      = item.TaxableItems.map (fun sub =>
          { price := sub.PriceInLowestUnit
            percentage :=
              match firstMatch s.Taxes country sub.ProductType with
              | some t => t.Percentage
              | none => 0 }) := by
  unfold taxAmountsFor
  rw [if_neg (by simp [hfv])]
  have hlen : item.TaxableItems.length > 0 := List.length_pos.mpr hsub
  simp [hlen]

lemma taxAmountsFor_simple (s : Settings) (country : String) (item : Item)
    (hfv : item.FixedVAT = 0) (hsub : item.TaxableItems = []) :
    taxAmountsFor (some s) country item
      = match firstMatch s.Taxes country item.ProductType with
        | some t => [{ price := item.PriceInLowestUnit, percentage := t.Percentage }]
        | none => [] := by
  unfold taxAmountsFor
  rw [if_neg (by simp [hfv])]
  simp [hsub]

lemma qtrunc_cast (x : ℚ) : (qtrunc x : ℚ) = x - qfrac x := by
  unfold qfrac
  ring

lemma qfrac_bounds_of_nonneg (x : ℚ) (h : 0 ≤ x) : 0 ≤ qfrac x ∧ qfrac x < 1 := by
  unfold qfrac qtrunc
  rw [if_pos h]
  constructor
  · have := Int.floor_le x
    linarith
  · have := Int.lt_floor_add_one x
    linarith

lemma qfrac_bounds_of_nonpos (x : ℚ) (h : x ≤ 0) : -1 < qfrac x ∧ qfrac x ≤ 0 := by
  unfold qfrac qtrunc
  rcases eq_or_lt_of_le h with rfl | hlt
  · norm_num
  · rw [if_neg (by linarith)]
    constructor
    · have := Int.ceil_lt_add_one x
      linarith
    · have := Int.le_ceil x
      linarith

lemma rint_pos_eq (x : ℚ) (h : 0 < x) :
    rint x = if 1/2 < qfrac x ∨ (qfrac x = 1/2 ∧ qtrunc x % 2 ≠ 0)
             then qtrunc x + 1 else qtrunc x := by
  unfold rint
  rw [if_pos h]

lemma rint_nonpos_eq (x : ℚ) (h : ¬ 0 < x) :
    rint x = if qfrac x < -(1/2) ∨ (qfrac x = -(1/2) ∧ qtrunc x % 2 ≠ 0)
             then qtrunc x - 1 else qtrunc x := by
  unfold rint
  rw [if_neg h]

lemma rint_nearest_and_ties_even (x : ℚ) :
    |x - (rint x : ℚ)| ≤ 1/2 ∧ (|x - (rint x : ℚ)| = 1/2 → rint x % 2 = 0) := by
  by_cases h : 0 < x
  · obtain ⟨hf0, hf1⟩ := qfrac_bounds_of_nonneg x h.le
    rw [rint_pos_eq x h]
    have hv : (qtrunc x : ℚ) = x - qfrac x := qtrunc_cast x
    by_cases hc : 1/2 < qfrac x ∨ (qfrac x = 1/2 ∧ qtrunc x % 2 ≠ 0)
    · rw [if_pos hc]
      have hhalf : 1/2 ≤ qfrac x := by
        rcases hc with h1 | ⟨h1, _⟩
        · linarith
        · linarith [h1.ge]
      have habs : |x - ((qtrunc x + 1 : ℤ) : ℚ)| = 1 - qfrac x := by
        push_cast
        rw [hv, abs_of_nonpos (by linarith)]
        ring
      rw [habs]
      refine ⟨by linarith, ?_⟩
      intro heq
      have hfe : qfrac x = 1/2 := by linarith
      rcases hc with h1 | ⟨_, h2⟩
      · exfalso
        linarith
      · omega
    · rw [if_neg hc]
      push_neg at hc
      obtain ⟨hle, hodd⟩ := hc
      have habs : |x - (qtrunc x : ℚ)| = qfrac x := by
        rw [hv, abs_of_nonneg (by linarith)]
        ring
      rw [habs]
      refine ⟨by linarith, ?_⟩
      intro heq
      have := hodd heq
      omega
  · obtain ⟨hf0, hf1⟩ := qfrac_bounds_of_nonpos x (not_lt.mp h)
    rw [rint_nonpos_eq x h]
    have hv : (qtrunc x : ℚ) = x - qfrac x := qtrunc_cast x
    by_cases hc : qfrac x < -(1/2) ∨ (qfrac x = -(1/2) ∧ qtrunc x % 2 ≠ 0)
    · rw [if_pos hc]
      have hhalf : qfrac x ≤ -(1/2) := by
        rcases hc with h1 | ⟨h1, _⟩
        · linarith
        · linarith [h1.le]
      have habs : |x - ((qtrunc x - 1 : ℤ) : ℚ)| = 1 + qfrac x := by
        push_cast
        rw [hv, abs_of_nonneg (by linarith)]
        ring
      rw [habs]
      refine ⟨by linarith, ?_⟩
      intro heq
      have hfe : qfrac x = -(1/2) := by linarith
      rcases hc with h1 | ⟨_, h2⟩
      · exfalso
        linarith
      · omega
    · rw [if_neg hc]
      push_neg at hc
      obtain ⟨hle, hodd⟩ := hc
      have habs : |x - (qtrunc x : ℚ)| = - qfrac x := by
        rw [hv, abs_of_nonpos (by linarith)]
        ring
      rw [habs]
      refine ⟨by linarith, ?_⟩
      intro heq
      have : qfrac x = -(1/2) := by linarith
      have := hodd this
      omega

lemma qtrunc_neg (x : ℚ) : qtrunc (-x) = - qtrunc x := by
  unfold qtrunc
  rcases lt_trichotomy x 0 with h | rfl | h
  · rw [if_pos (by linarith), if_neg (by linarith), Int.floor_neg]
  · norm_num
  · rw [if_neg (by linarith), if_pos (by linarith), Int.ceil_neg]

lemma qfrac_neg (x : ℚ) : qfrac (-x) = - qfrac x := by
  unfold qfrac
  rw [qtrunc_neg]
  push_cast
  ring

lemma rint_neg (x : ℚ) : rint (-x) = - rint x := by
  rcases lt_trichotomy x 0 with h | rfl | h
  · rw [rint_pos_eq (-x) (by linarith), rint_nonpos_eq x (by linarith),
      qfrac_neg, qtrunc_neg]
    by_cases hc : qfrac x < -(1/2) ∨ (qfrac x = -(1/2) ∧ qtrunc x % 2 ≠ 0)
    · have hc2 : 1/2 < -(qfrac x) ∨ (-(qfrac x) = 1/2 ∧ (- qtrunc x) % 2 ≠ 0) := by
        rcases hc with h1 | ⟨h1, h2⟩
        · left
          linarith
        · exact Or.inr ⟨by linarith, by omega⟩
      rw [if_pos hc2, if_pos hc]
      ring
    · have hc2 : ¬ (1/2 < -(qfrac x) ∨ (-(qfrac x) = 1/2 ∧ (- qtrunc x) % 2 ≠ 0)) := by
        intro hcon
        apply hc
        rcases hcon with h1 | ⟨h1, h2⟩
        · left
          linarith
        · exact Or.inr ⟨by linarith, by omega⟩
      rw [if_neg hc2, if_neg hc]
  · have h0 : rint 0 = 0 := by decide
    rw [neg_zero, h0]
    norm_num
  · rw [rint_nonpos_eq (-x) (by linarith), rint_pos_eq x h, qfrac_neg, qtrunc_neg]
    by_cases hc : 1/2 < qfrac x ∨ (qfrac x = 1/2 ∧ qtrunc x % 2 ≠ 0)
    · have hc2 : -(qfrac x) < -(1/2) ∨ (-(qfrac x) = -(1/2) ∧ (- qtrunc x) % 2 ≠ 0) := by
        rcases hc with h1 | ⟨h1, h2⟩
        · left
          linarith
        · exact Or.inr ⟨by linarith, by omega⟩
      rw [if_pos hc2, if_pos hc]
      ring
    · have hc2 : ¬ (-(qfrac x) < -(1/2) ∨ (-(qfrac x) = -(1/2) ∧ (- qtrunc x) % 2 ≠ 0)) := by
        intro hcon
        apply hc
        rcases hcon with h1 | ⟨h1, h2⟩
        · left
          linarith
        · exact Or.inr ⟨by linarith, by omega⟩
      rw [if_neg hc2, if_neg hc]

/-- C1: for every input (settings present or absent, coupon present or
absent, any items), every per-item result returned by `CalculatePrice`
satisfies `total = subtotal - discount + taxes` (in the engine's `uint64`
arithmetic), and the order-level result satisfies the same equation over its
order-level fields. -/
theorem C1_total_equation (settings : Option Settings) (country currency : String)
    (coupon : Option Coupon) (items : List Item) :
    (∀ p ∈ (CalculatePrice settings country currency coupon items).Items,
        p.Total = add64 (sub64 p.Subtotal p.Discount) p.Taxes) ∧
    (CalculatePrice settings country currency coupon items).Total
      = add64
          (sub64 (CalculatePrice settings country currency coupon items).Subtotal
                 (CalculatePrice settings country currency coupon items).Discount)
          (CalculatePrice settings country currency coupon items).Taxes := by
  obtain ⟨hItems, _, _, _, hTotal⟩ :=
    CalculatePrice_fields settings country currency coupon items
  refine ⟨?_, hTotal⟩
  intro p hp
  rw [hItems] at hp
  obtain ⟨i, _, rfl⟩ := List.mem_map.mp hp
  exact calculateItemPrice_Total _ _ _ _ _

/-- C1 witness: the total equation instantiated on the concrete
tax-exclusive example order. -/
theorem C1_total_equation_witness :
    (calculateItemPrice false (some sampleSettingsEx) "US" none sampleItem).Total
      = add64
          (sub64 (calculateItemPrice false (some sampleSettingsEx) "US" none sampleItem).Subtotal
                 (calculateItemPrice false (some sampleSettingsEx) "US" none sampleItem).Discount)
          (calculateItemPrice false (some sampleSettingsEx) "US" none sampleItem).Taxes :=
  (C1_total_equation (some sampleSettingsEx) "US" "USD" none [sampleItem]).1
    (calculateItemPrice false (some sampleSettingsEx) "US" none sampleItem) (by decide)

/-- C4 counterexample: with settings absent, an item with a non-zero
fixedVATPercentage still receives a tax amount — its taxes are 200, not 0 —
refuting the claim that no tax amounts are computed regardless of the item's
other fields. -/
theorem C4_counterexample :
    (CalculatePrice none "US" "USD" none [fixedVATItem]).Items.map ItemPrice.Taxes = [200]
      ∧ (200 : ℕ) ≠ 0 := by decide

/-- C4 (amended): with settings absent, every item whose fixedVATPercentage
is zero gets no tax amounts — taxes 0 and subtotal equal to the raw unit
price, including items with taxable sub-items; an item with a non-zero
fixedVATPercentage, however, is still taxed at its fixed VAT rate. -/
theorem C4_no_settings (country currency : String) (coupon : Option Coupon)
    (items : List Item) :
    (CalculatePrice none country currency coupon items).Items
        = items.map (calculateItemPrice false none country coupon) ∧
    ∀ item ∈ items,
      (item.FixedVAT = 0 →
        (calculateItemPrice false none country coupon item).Taxes = 0 ∧
        (calculateItemPrice false none country coupon item).Subtotal
          = item.PriceInLowestUnit) ∧
      (item.FixedVAT ≠ 0 →
        (calculateItemPrice false none country coupon item).Taxes
          = rintU ((item.PriceInLowestUnit : ℚ) * (item.FixedVAT : ℚ) / 100)) := by
  refine ⟨(CalculatePrice_fields none country currency coupon items).1, ?_⟩
  intro item _
  constructor
  · intro hfv
    have hA : taxAmountsFor none country item = [] := taxAmountsFor_noSettings country item hfv
    have h := itemSubTax_noTax false none country item hA
    rw [calculateItemPrice_Taxes, calculateItemPrice_Subtotal, h]
    exact ⟨rfl, rfl⟩
  · intro hfv
    have hA : taxAmountsFor none country item
        = [{ price := item.PriceInLowestUnit, percentage := item.FixedVAT }] :=
      taxAmountsFor_fixedVAT none country item hfv
    rw [calculateItemPrice_Taxes, itemSubTax_excl, hA]
    simp [exclTax, Nat.mod_eq_of_lt (rintU_lt _)]

/-- C4 amended-claim witness: a zero-fixed-VAT item gets taxes 0 and an item
with fixed VAT 20 on price 1000 gets taxes 200, all with settings absent. -/
theorem C4_no_settings_witness :
    ((calculateItemPrice false none "US" none sampleItem).Taxes = 0 ∧
     (calculateItemPrice false none "US" none sampleItem).Subtotal
       = sampleItem.PriceInLowestUnit) ∧
    (calculateItemPrice false none "US" none fixedVATItem).Taxes = 200 := by
  constructor
  · exact ((C4_no_settings "US" "USD" none [sampleItem]).2 sampleItem
      (List.mem_singleton.mpr rfl)).1 (by decide)
  · rw [((C4_no_settings "US" "USD" none [fixedVATItem]).2 fixedVATItem
      (List.mem_singleton.mpr rfl)).2 (by decide)]
    decide

/-- C10: all monetary fields are uint64 values and the engine's arithmetic
wraps modulo 2^64 without signalling an error: with a 200% coupon under
tax-exclusive pricing, the discount (2000) exceeds subtotal + taxes (1000),
and the item total `subtotal - discount + taxes` wraps around to
`2^64 - 1000`, which is greater than subtotal + taxes instead of negative. -/
theorem C10_wraparound :
    (CalculatePrice none "US" "USD" (some overCoupon) [sampleItem]).Items.map
        ItemPrice.Subtotal = [1000] ∧
    (CalculatePrice none "US" "USD" (some overCoupon) [sampleItem]).Items.map
        ItemPrice.Taxes = [0] ∧
    (CalculatePrice none "US" "USD" (some overCoupon) [sampleItem]).Items.map
        ItemPrice.Discount = [2000] ∧
    (CalculatePrice none "US" "USD" (some overCoupon) [sampleItem]).Items.map
        ItemPrice.Total = [(1000 + (W - 2000)) % W] ∧
    (1000 + (W - 2000)) % W = W - 1000 ∧
    1000 + 0 < (1000 + (W - 2000)) % W := by decide
lemma backOut_eq (a : taxAmount) :
    backOut a = rintU ((a.price : ℚ) * 100 / (100 + (a.percentage : ℚ))) := by
  unfold backOut
  rw [div_mul_eq_mul_div]

lemma backOut_funext :
    backOut = fun a => rintU ((a.price : ℚ) * 100 / (100 + (a.percentage : ℚ))) :=
  funext backOut_eq

lemma inclTax_funext :
    inclTax = fun a =>
      rintU (((rintU ((a.price : ℚ) * 100 / (100 + (a.percentage : ℚ)))) : ℚ)
        * (a.percentage : ℚ) / 100) := by
  funext a
  unfold inclTax
  rw [backOut_eq]

/-- C2: when prices include taxes and the item has at least one tax amount
pair, the item subtotal is replaced by the sum over pairs of
`round(basis * 100 / (100 + percentage))` and its taxes are the sum over
pairs of `round(basis_excl * percentage / 100)` computed on the backed-out
basis (sums taken in uint64 arithmetic). -/
theorem C2_tax_inclusive (s : Settings) (country : String) (coupon : Option Coupon)
    (item : Item) (hinc : s.PricesIncludeTaxes = true)
    (h : taxAmountsFor (some s) country item ≠ []) :
    (calculateItemPrice (includeTaxesFlag (some s)) (some s) country coupon item).Subtotal
        = (((taxAmountsFor (some s) country item).map
            (fun a => rintU ((a.price : ℚ) * 100 / (100 + (a.percentage : ℚ))))).sum) % W ∧
    (calculateItemPrice (includeTaxesFlag (some s)) (some s) country coupon item).Taxes
        = (((taxAmountsFor (some s) country item).map
            (fun a => rintU (((rintU ((a.price : ℚ) * 100 / (100 + (a.percentage : ℚ)))) : ℚ)
              * (a.percentage : ℚ) / 100))).sum) % W := by
  have hflag : includeTaxesFlag (some s) = true := hinc
  rw [hflag, calculateItemPrice_Subtotal, calculateItemPrice_Taxes,
    itemSubTax_incl (some s) country item h]
  exact ⟨by rw [← backOut_funext], by rw [← inclTax_funext]⟩

/-- C2 witness: the tax-inclusive example — price 1200 with the single 20%
rule gives subtotal 1000, taxes 200, total 1200. -/
theorem C2_tax_inclusive_witness :
    ((calculateItemPrice (includeTaxesFlag (some sampleSettingsInc)) (some sampleSettingsInc)
        "US" none sampleItemInc).Subtotal
      = (((taxAmountsFor (some sampleSettingsInc) "US" sampleItemInc).map
          (fun a => rintU ((a.price : ℚ) * 100 / (100 + (a.percentage : ℚ))))).sum) % W) ∧
    (calculateItemPrice (includeTaxesFlag (some sampleSettingsInc)) (some sampleSettingsInc)
        "US" none sampleItemInc).Subtotal = 1000 ∧
    (calculateItemPrice (includeTaxesFlag (some sampleSettingsInc)) (some sampleSettingsInc)
        "US" none sampleItemInc).Taxes = 200 ∧
    (calculateItemPrice (includeTaxesFlag (some sampleSettingsInc)) (some sampleSettingsInc)
        "US" none sampleItemInc).Total = 1200 :=
  ⟨(C2_tax_inclusive sampleSettingsInc "US" none sampleItemInc rfl (by decide)).1, by decide⟩

/-- C3: when prices exclude taxes and the item has tax amount pairs, the
subtotal stays equal to the raw unit price and the taxes are the sum over
pairs of `round(basis * percentage / 100)` on the original basis. -/
theorem C3_tax_exclusive (settings : Option Settings) (country : String)
    (coupon : Option Coupon) (item : Item)
    (hexc : includeTaxesFlag settings = false)
    (h : taxAmountsFor settings country item ≠ []) :
    (calculateItemPrice (includeTaxesFlag settings) settings country coupon item).Subtotal
        = item.PriceInLowestUnit ∧
    (calculateItemPrice (includeTaxesFlag settings) settings country coupon item).Taxes
        = (((taxAmountsFor settings country item).map
            (fun a => rintU ((a.price : ℚ) * (a.percentage : ℚ) / 100))).sum) % W := by
  rw [hexc, calculateItemPrice_Subtotal, calculateItemPrice_Taxes, itemSubTax_excl]
  exact ⟨rfl, rfl⟩

/-- C3 witness: the tax-exclusive example — price 1000, quantity 1, one
matching 20% rule gives subtotal 1000, taxes 200, discount 0, total 1200. -/
theorem C3_tax_exclusive_witness :
    ((calculateItemPrice (includeTaxesFlag (some sampleSettingsEx)) (some sampleSettingsEx)
        "US" none sampleItem).Subtotal = sampleItem.PriceInLowestUnit) ∧
    (calculateItemPrice (includeTaxesFlag (some sampleSettingsEx)) (some sampleSettingsEx)
        "US" none sampleItem).Subtotal = 1000 ∧
    (calculateItemPrice (includeTaxesFlag (some sampleSettingsEx)) (some sampleSettingsEx)
        "US" none sampleItem).Taxes = 200 ∧
    (calculateItemPrice (includeTaxesFlag (some sampleSettingsEx)) (some sampleSettingsEx)
        "US" none sampleItem).Discount = 0 ∧
    (calculateItemPrice (includeTaxesFlag (some sampleSettingsEx)) (some sampleSettingsEx)
        "US" none sampleItem).Total = 1200 :=
  ⟨(C3_tax_exclusive (some sampleSettingsEx) "US" none sampleItem rfl (by decide)).1,
   by decide⟩

/-- C9: an item with zero fixed VAT and a non-empty list of taxable
sub-items (settings present) yields one tax amount pair per sub-item, with
the sub-item's own price as basis and the percentage of the first rule
matching the sub-item's product type (0 when none matches); in exclusive
mode the parent's raw price is untaxed (the subtotal stays the parent's
price) and the item tax is the sum of each sub-item's independently rounded
tax. -/
theorem C9_taxable_sub_items (s : Settings) (country : String) (coupon : Option Coupon)
    (item : Item) (hfv : item.FixedVAT = 0) (hsub : item.TaxableItems ≠ []) :
    taxAmountsFor (some s) country item
      = item.TaxableItems.map (fun sub =>
          { price := sub.PriceInLowestUnit
            percentage :=
              match firstMatch s.Taxes country sub.ProductType with
              | some t => t.Percentage
              | none => 0 }) ∧
    (s.PricesIncludeTaxes = false →
      (calculateItemPrice (includeTaxesFlag (some s)) (some s) country coupon item).Subtotal
          = item.PriceInLowestUnit ∧
      (calculateItemPrice (includeTaxesFlag (some s)) (some s) country coupon item).Taxes
          = ((item.TaxableItems.map (fun sub =>
              rintU ((sub.PriceInLowestUnit : ℚ) *
                (((match firstMatch s.Taxes country sub.ProductType with
                   | some t => t.Percentage
                   | none => 0) : ℕ) : ℚ) / 100))).sum) % W) := by
  have hA := taxAmountsFor_subItems s country item hfv hsub
  refine ⟨hA, ?_⟩
  intro hexc
  have hflag : includeTaxesFlag (some s) = false := hexc
  rw [hflag, calculateItemPrice_Subtotal, calculateItemPrice_Taxes, itemSubTax_excl]
  refine ⟨rfl, ?_⟩
  rw [hA, List.map_map]
  rfl

/-- C9 witness: a bundle priced 500 with two sub-items priced 105 under a
wildcard 10% rule keeps subtotal 500 and gets taxes 10 + 10 = 20, which
differs from a single rounded tax 21 on the combined sub-item price 210. -/
theorem C9_taxable_sub_items_witness :
    ((calculateItemPrice (includeTaxesFlag (some wildcardSettings)) (some wildcardSettings)
        "US" none bundleItem).Subtotal = bundleItem.PriceInLowestUnit) ∧
    (calculateItemPrice (includeTaxesFlag (some wildcardSettings)) (some wildcardSettings)
        "US" none bundleItem).Subtotal = 500 ∧
    (calculateItemPrice (includeTaxesFlag (some wildcardSettings)) (some wildcardSettings)
        "US" none bundleItem).Taxes = 20 ∧
    (20 : ℕ) ≠ rintU ((210 : ℚ) * 10 / 100) :=
  ⟨((C9_taxable_sub_items wildcardSettings "US" none bundleItem rfl
      (List.cons_ne_nil _ _)).2 rfl).1,
   by decide⟩
/-- C5: rule matching iterates the configured sequence in order and selects
the first rule whose productTypes set is empty or contains the item's type
AND whose countries set is empty or contains the buyer's country, returning
no rule when none matches; empty sets are wildcards, an earlier match is
never overridden, and for a simple item at most one matched rule's
percentage is used (never an accumulation). -/
theorem C5_first_match_semantics (rules : List Tax) (country productType : String) :
    (∀ t : Tax, t.AppliesTo country productType = true ↔
        ((t.ProductTypes = [] ∨ productType ∈ t.ProductTypes) ∧
         (t.Countries = [] ∨ country ∈ t.Countries))) ∧
    firstMatch rules country productType
      = rules.find? (fun t => t.AppliesTo country productType) ∧
    ((∀ t ∈ rules, t.AppliesTo country productType = false) →
      firstMatch rules country productType = none) ∧
    (∀ t : Tax, firstMatch rules country productType = some t →
        t.AppliesTo country productType = true ∧
        ∃ pre post, rules = pre ++ t :: post ∧
          ∀ u ∈ pre, u.AppliesTo country productType = false) ∧
    (∀ s : Settings, ∀ item : Item, item.FixedVAT = 0 → item.TaxableItems = [] →
        taxAmountsFor (some s) country item
          = match firstMatch s.Taxes country item.ProductType with
            | some t => [{ price := item.PriceInLowestUnit, percentage := t.Percentage }]
            | none => []) :=
  ⟨fun t => AppliesTo_iff t country productType,
   firstMatch_eq_find rules country productType,
   firstMatch_none rules country productType,
   fun t h => firstMatch_some rules country productType t h,
   fun s item hfv hsub => taxAmountsFor_simple s country item hfv hsub⟩

/-- C5 witness: in the sequence [non-matching rule, matching 20% rule] the
20% rule is selected as first match with the non-matching rule refused, and
the simple item yields exactly one (price, percentage) pair. -/
theorem C5_first_match_semantics_witness :
    (sampleTax.AppliesTo "US" "b" = true ∧
      ∃ pre post, [otherTax, sampleTax] = pre ++ sampleTax :: post ∧
        ∀ u ∈ pre, u.AppliesTo "US" "b" = false) ∧
    taxAmountsFor (some sampleSettingsEx) "US" sampleItem
      = [{ price := 1000, percentage := 20 }] := by
  constructor
  · exact (C5_first_match_semantics [otherTax, sampleTax] "US" "b").2.2.2.1 sampleTax
      (by decide)
  · rw [(C5_first_match_semantics [] "US" "b").2.2.2.2 sampleSettingsEx sampleItem rfl rfl]
    decide

/-- C6: with a coupon present and valid for the item's product type, the
discount is `round(base * percentageDiscount / 100)` where the base is the
item subtotal alone in tax-exclusive mode and subtotal + taxes in
tax-inclusive mode; the coupon's fixedDiscount is never consulted, and
without a coupon (or with an invalid type) the discount is 0. -/
theorem C6_coupon_discount (settings : Option Settings) (country : String)
    (c : Coupon) (item : Item) :
    (c.ValidForType item.ProductType = true →
      (calculateItemPrice (includeTaxesFlag settings) settings country (some c) item).Discount
        = rintU
            ((((if includeTaxesFlag settings then
                  add64
                    (calculateItemPrice (includeTaxesFlag settings) settings country
                      (some c) item).Subtotal
                    (calculateItemPrice (includeTaxesFlag settings) settings country
                      (some c) item).Taxes
                else
                  (calculateItemPrice (includeTaxesFlag settings) settings country
                    (some c) item).Subtotal) : ℕ) : ℚ)
              * (c.PercentageDiscount : ℚ) / 100)) ∧
    (c.ValidForType item.ProductType = false →
      (calculateItemPrice (includeTaxesFlag settings) settings country (some c) item).Discount
        = 0) ∧
    (calculateItemPrice (includeTaxesFlag settings) settings country none item).Discount
        = 0 ∧
    (∀ n : ℕ,
      calculateItemPrice (includeTaxesFlag settings) settings country
          (some { c with FixedDiscount := n }) item
        = calculateItemPrice (includeTaxesFlag settings) settings country (some c) item) := by
  refine ⟨?_, ?_, calculateItemPrice_Discount_none _ _ _ _,
    fun n => calculateItemPrice_FixedDiscount_irrelevant _ _ _ _ _ _⟩
  · intro hv
    rw [calculateItemPrice_Discount, if_pos hv]
  · intro hv
    rw [calculateItemPrice_Discount, if_neg (by simp [hv])]

/-- C6 witness: price 1000, 20% exclusive tax, valid 10% coupon gives
discount 100 and total 1100. -/
theorem C6_coupon_discount_witness :
    ((calculateItemPrice (includeTaxesFlag (some sampleSettingsEx)) (some sampleSettingsEx)
        "US" (some sampleCoupon) sampleItem).Discount
      = rintU
          ((((if includeTaxesFlag (some sampleSettingsEx) then
                add64
                  (calculateItemPrice (includeTaxesFlag (some sampleSettingsEx))
                    (some sampleSettingsEx) "US" (some sampleCoupon) sampleItem).Subtotal
                  (calculateItemPrice (includeTaxesFlag (some sampleSettingsEx))
                    (some sampleSettingsEx) "US" (some sampleCoupon) sampleItem).Taxes
              else
                (calculateItemPrice (includeTaxesFlag (some sampleSettingsEx))
                  (some sampleSettingsEx) "US" (some sampleCoupon) sampleItem).Subtotal) : ℕ) : ℚ)
            * (sampleCoupon.PercentageDiscount : ℚ) / 100)) ∧
    (calculateItemPrice (includeTaxesFlag (some sampleSettingsEx)) (some sampleSettingsEx)
        "US" (some sampleCoupon) sampleItem).Discount = 100 ∧
    (calculateItemPrice (includeTaxesFlag (some sampleSettingsEx)) (some sampleSettingsEx)
        "US" (some sampleCoupon) sampleItem).Total = 1100 :=
  ⟨(C6_coupon_discount (some sampleSettingsEx) "US" sampleCoupon sampleItem).1 (by decide),
   by decide⟩

/-- C7: the aggregator processes items in input order appending one result
per item, accumulates order-level subtotal/discount/taxes as the
quantity-weighted sums of the per-item unit amounts (exact sums under the
no-overflow hypotheses), and recomputes the order total after the loop as
`subtotal - discount + taxes`. -/
theorem C7_aggregation (settings : Option Settings) (country currency : String)
    (coupon : Option Coupon) (items : List Item)
    (hS : ((items.map (fun i =>
        (calculateItemPrice (includeTaxesFlag settings) settings country coupon i).Subtotal *
        (calculateItemPrice (includeTaxesFlag settings) settings country coupon i).Quantity)).sum)
      < W)
    (hD : ((items.map (fun i =>
        (calculateItemPrice (includeTaxesFlag settings) settings country coupon i).Discount *
        (calculateItemPrice (includeTaxesFlag settings) settings country coupon i).Quantity)).sum)
      < W)
    (hT : ((items.map (fun i =>
        (calculateItemPrice (includeTaxesFlag settings) settings country coupon i).Taxes *
        (calculateItemPrice (includeTaxesFlag settings) settings country coupon i).Quantity)).sum)
      < W) :
    (CalculatePrice settings country currency coupon items).Items
        = items.map (calculateItemPrice (includeTaxesFlag settings) settings country coupon) ∧
    (CalculatePrice settings country currency coupon items).Subtotal
        = (items.map (fun i =>
            (calculateItemPrice (includeTaxesFlag settings) settings country coupon i).Subtotal *
            (calculateItemPrice (includeTaxesFlag settings) settings country coupon i).Quantity)).sum ∧
    (CalculatePrice settings country currency coupon items).Discount
        = (items.map (fun i =>
            (calculateItemPrice (includeTaxesFlag settings) settings country coupon i).Discount *
            (calculateItemPrice (includeTaxesFlag settings) settings country coupon i).Quantity)).sum ∧
    (CalculatePrice settings country currency coupon items).Taxes
        = (items.map (fun i =>
            (calculateItemPrice (includeTaxesFlag settings) settings country coupon i).Taxes *
            (calculateItemPrice (includeTaxesFlag settings) settings country coupon i).Quantity)).sum ∧
    (CalculatePrice settings country currency coupon items).Total
        = add64
            (sub64 (CalculatePrice settings country currency coupon items).Subtotal
                   (CalculatePrice settings country currency coupon items).Discount)
            (CalculatePrice settings country currency coupon items).Taxes := by
  obtain ⟨h1, h2, h3, h4, h5⟩ := CalculatePrice_fields settings country currency coupon items
  exact ⟨h1, by rw [h2, Nat.mod_eq_of_lt hS], by rw [h3, Nat.mod_eq_of_lt hD],
    by rw [h4, Nat.mod_eq_of_lt hT], h5⟩

/-- C7 witness: an item with quantity 3 and unit total 1100 (price 1000,
20% exclusive tax, 10% coupon) contributes exactly 3300 to the order
total. -/
theorem C7_aggregation_witness :
    ((CalculatePrice (some sampleSettingsEx) "US" "USD" (some sampleCoupon)
        [sampleItemQty3]).Subtotal
      = ([sampleItemQty3].map (fun i =>
          (calculateItemPrice (includeTaxesFlag (some sampleSettingsEx)) (some sampleSettingsEx)
            "US" (some sampleCoupon) i).Subtotal *
          (calculateItemPrice (includeTaxesFlag (some sampleSettingsEx)) (some sampleSettingsEx)
            "US" (some sampleCoupon) i).Quantity)).sum) ∧
    (calculateItemPrice (includeTaxesFlag (some sampleSettingsEx)) (some sampleSettingsEx)
        "US" (some sampleCoupon) sampleItemQty3).Total = 1100 ∧
    (calculateItemPrice (includeTaxesFlag (some sampleSettingsEx)) (some sampleSettingsEx)
        "US" (some sampleCoupon) sampleItemQty3).Quantity = 3 ∧
    (CalculatePrice (some sampleSettingsEx) "US" "USD" (some sampleCoupon)
        [sampleItemQty3]).Total = 3300 :=
  ⟨(C7_aggregation (some sampleSettingsEx) "US" "USD" (some sampleCoupon) [sampleItemQty3]
      (by decide) (by decide) (by decide)).2.1,
   by decide⟩

/-- C8: the rounding function splits its argument into truncated integral
part and same-signed fractional remainder, always returns a nearest integer,
breaks exact halves toward the even neighbour, mirrors negatives
symmetrically, and on positive arguments rounds up exactly when
`frac > 1/2` or (`frac = 1/2` and the integral part is odd). -/
theorem C8_round_half_to_even (x : ℚ) :
    |x - (rint x : ℚ)| ≤ 1/2 ∧
    (|x - (rint x : ℚ)| = 1/2 → rint x % 2 = 0) ∧
    rint (-x) = - rint x ∧
    (0 < x →
      rint x = if 1/2 < qfrac x ∨ (qfrac x = 1/2 ∧ qtrunc x % 2 ≠ 0)
               then qtrunc x + 1 else qtrunc x) :=
  ⟨(rint_nearest_and_ties_even x).1, (rint_nearest_and_ties_even x).2, rint_neg x,
   fun h => rint_pos_eq x h⟩

/-- C8 witness: 5/2 (even integral part 2) is an exact half and rounds to
the even value 2; 3/2 (odd integral part 1) rounds up to 2; negation
mirrors. -/
theorem C8_round_half_to_even_witness :
    rint ((5:ℚ)/2) % 2 = 0 ∧
    rint (-((3:ℚ)/2)) = - rint ((3:ℚ)/2) ∧
    rint ((3:ℚ)/2)
      = (if 1/2 < qfrac ((3:ℚ)/2) ∨ (qfrac ((3:ℚ)/2) = 1/2 ∧ qtrunc ((3:ℚ)/2) % 2 ≠ 0)
         then qtrunc ((3:ℚ)/2) + 1 else qtrunc ((3:ℚ)/2)) ∧
    rint ((5:ℚ)/2) = 2 ∧ rint ((3:ℚ)/2) = 2 :=
  ⟨(C8_round_half_to_even ((5:ℚ)/2)).2.1 (by decide),
   (C8_round_half_to_even ((3:ℚ)/2)).2.2.1,
   (C8_round_half_to_even ((3:ℚ)/2)).2.2.2 (by norm_num),
   by decide, by decide⟩
